import Mathlib

/-
Verification of the chat-session persistence core and the context-assembly
pipeline of the LLMapp backend.

The storage layer (app/infrastructure/storage.py, class SQLiteChatStorage) is
embedded as a pure state type `Storage`: the `chats` table is the list of chat
ids in insertion order, the `messages` table is the list of message rows in
rowid (insertion) order, and the `chat_names` table is an association list
keyed by chat id.  SQLite's CURRENT_TIMESTAMP default is modelled by a
caller-supplied clock reading (a `Nat`) passed to each insert; sequential
inserts supply non-decreasing readings, and ties (two inserts within the same
clock tick) are allowed, as they are in the real database.  `ORDER BY
timestamp ASC` is embedded as a stable insertion sort on the timestamp field,
matching SQLite's full-table-scan behaviour of returning tied rows in rowid
order.  Python exceptions (ValueError in the storage layer) are embedded as
`Except String` with the exact message strings raised by the source.

The HTTP orchestrator (app/main.py, send_message and friends) is embedded as a
function from a request plus collaborator outcomes to the new storage state
paired with the HTTP-level result; the state is returned in both the success
and the error case because the database commits each insert independently, so
an exception later in the request does not roll back earlier inserts.
-/

namespace LLMApp

/-- Python's `str.isspace()` for one character: the characters
`str.strip()` removes.  These are the ASCII whitespace and separator
controls U+0009-U+000D and U+001C-U+0020, next line U+0085, and the Unicode
space separators U+00A0, U+1680, U+2000-U+200A, U+2028, U+2029, U+202F,
U+205F and U+3000 (the exact set CPython strips). -/
def pyIsSpace (c : Char) : Bool :=
  (0x09 ≤ c.toNat && c.toNat ≤ 0x0d) ||
  (0x1c ≤ c.toNat && c.toNat ≤ 0x20) ||
  c.toNat == 0x85 || c.toNat == 0xa0 || c.toNat == 0x1680 ||
  (0x2000 ≤ c.toNat && c.toNat ≤ 0x200a) ||
  c.toNat == 0x2028 || c.toNat == 0x2029 || c.toNat == 0x202f ||
  c.toNat == 0x205f || c.toNat == 0x3000

/-- Python's `str.strip()` with no argument: drops leading and trailing
whitespace (the full Unicode whitespace set of `pyIsSpace`), embedded at the
character-list level. -/
def pyStrip (s : String) : String :=
  String.mk
    (((s.data.dropWhile pyIsSpace).reverse.dropWhile pyIsSpace).reverse)

/-- Python's `str.endswith(t)`: the last `|t|` characters of `s` equal `t`. -/
def strEndsWith (s t : String) : Bool :=
  (s.data.reverse.take t.data.length) == t.data.reverse

/-- Python's `str.lower()` over the ASCII range. -/
def pyLower (s : String) : String := String.mk (s.data.map Char.toLower)

/-- A message as returned by `SQLiteChatStorage.get_history`: the SELECT
projects only the `role` and `content` columns. -/
structure Message where
  role : String
  content : String
  deriving DecidableEq, Repr

/-- A row of the `messages` table: chat id, role, content, and the timestamp
assigned at insertion (`TIMESTAMP DEFAULT CURRENT_TIMESTAMP`). -/
structure MsgRow where
  chatId : String
  role : String
  content : String
  timestamp : Nat
  deriving DecidableEq, Repr

/-- The state of the SQLite database behind `SQLiteChatStorage`: the `chats`
table (ids in insertion order), the `messages` table (rows in rowid order),
and the `chat_names` table (chat id, name). -/
structure Storage where
  chats : List String
  messages : List MsgRow
  chatNames : List (String × String)
  deriving DecidableEq, Repr

/-- The empty database produced by `_init_db` on a fresh file. -/
def Storage.init : Storage := { chats := [], messages := [], chatNames := [] }

/-- `SQLiteChatStorage.create_chat`: inserts a fresh id into `chats`.  The
uuid4 value is modelled as a caller-supplied id; the PRIMARY KEY constraint
makes a duplicate insert fail. -/
def create_chat (newId : String) (σ : Storage) : Except String Storage :=
  if σ.chats.contains newId then
    .error "UNIQUE constraint failed: chats.chat_id"
  else
    .ok { σ with chats := σ.chats ++ [newId] }

/-- The row inserted by `add_message` for chat `c`, message `m`, at clock
reading `t`. -/
def msgRow (c : String) (m : Message) (t : Nat) : MsgRow :=
  { chatId := c, role := m.role, content := m.content, timestamp := t }

/-- The storage state after a successful insert of message `m` into chat `c`
at clock reading `t`. -/
def addRow (t : Nat) (c : String) (m : Message) (σ : Storage) : Storage :=
  { σ with messages := σ.messages ++ [msgRow c m t] }

/-- `SQLiteChatStorage.add_message`: checks that the chat exists
(`SELECT 1 FROM chats WHERE chat_id = ?`), raising
`ValueError(f"Chat {chat_id} not found")` otherwise, then inserts the row with
a fresh CURRENT_TIMESTAMP reading `t`. -/
def add_message (t : Nat) (c : String) (m : Message) (σ : Storage) :
    Except String Storage :=
  if σ.chats.contains c then
    .ok (addRow t c m σ)
  else
    .error ("Chat " ++ c ++ " not found")

/-- `SQLiteChatStorage.get_history`: `SELECT role, content FROM messages WHERE
chat_id = ? ORDER BY timestamp ASC`.  The WHERE clause is the filter, ORDER BY
is a stable sort on the timestamp, and the projection keeps role and
content. -/
def get_history (σ : Storage) (c : String) : List Message :=
  (List.insertionSort (fun a b => a.timestamp ≤ b.timestamp)
      (σ.messages.filter (fun r => r.chatId == c))).map
    (fun r => { role := r.role, content := r.content })

/-- `SQLiteChatStorage.delete_chat`: `DELETE FROM messages WHERE chat_id = ?`
then `DELETE FROM chats WHERE chat_id = ?`.  Note that the source issues no
DELETE against `chat_names`, so the name association survives.  SQL DELETE on
a missing id deletes zero rows and is not an error, hence the total type. -/
def delete_chat (c : String) (σ : Storage) : Storage :=
  { σ with
    messages := σ.messages.filter (fun r => !(r.chatId == c))
    chats := σ.chats.filter (fun x => !(x == c)) }

/-- `SQLiteChatStorage.rename_chat`: raises
`ValueError("Имя чата не может быть пустым")` when the stripped name is empty
(before touching the database, so any prior name is untouched), raises
`ValueError(f"Чат {chat_id} не найден")` when the chat does not exist, and
otherwise `INSERT OR REPLACE`s the stripped name. -/
def rename_chat (c : String) (newName : String) (σ : Storage) :
    Except String Storage :=
  if pyStrip newName = "" then
    .error "Имя чата не может быть пустым"
  else if σ.chats.contains c then
    .ok { σ with
          chatNames := (σ.chatNames.filter (fun p => !(p.1 == c))) ++
            [(c, pyStrip newName)] }
  else
    .error ("Чат " ++ c ++ " не найден")

/-- `SQLiteChatStorage.get_chat_name`: `SELECT name FROM chat_names WHERE
chat_id = ?`, `None` when no row matches. -/
def get_chat_name (σ : Storage) (c : String) : Option String :=
  match σ.chatNames.find? (fun p => p.1 == c) with
  | some p => some p.2
  | none => none

/-- Outcomes of the file-content extraction calls made by
`FileProcessor.process_file` (app/adapters/file_processors.py): the OCR call,
the per-page PDF extraction, the per-paragraph DOCX extraction, and the plain
UTF-8 read.  Each is an `Except` because the underlying library call may
raise; the raised message is the payload of `.error`. -/
structure ExtractOps where
  ocr : Except String String
  pdfPages : Except String (List String)
  docxParas : Except String (List String)
  readText : Except String String
  deriving Repr

/-- The body of the `try` block of `FileProcessor.process_file`: dispatch on
the file-path suffix (this check does not lowercase the path, unlike the one
in `send_message`), join PDF pages and DOCX paragraphs with newline
separators, and read anything else as UTF-8 text. -/
def process_file_raw (fp : String) (ops : ExtractOps) : Except String String :=
  if strEndsWith fp ".png" || strEndsWith fp ".jpg" || strEndsWith fp ".jpeg" then
    ops.ocr
  else if strEndsWith fp ".pdf" then
    (ops.pdfPages).map (fun pages => String.intercalate "\n" pages)
  else if strEndsWith fp ".docx" then
    (ops.docxParas).map (fun paras => String.intercalate "\n" paras)
  else
    ops.readText

/-- `FileProcessor.process_file`: the `try`/`except` wrapper around
`process_file_raw` that converts any raised extraction error into the string
`f"Error processing file: {str(e)}"` returned as ordinary text. -/
def process_file (fp : String) (ops : ExtractOps) : String :=
  match process_file_raw fp ops with
  | .ok t => t
  | .error e => "Error processing file: " ++ e

/-- `FileProcessor.extract_text_from_image`: returns the OCR text, converting
a raised error into `f"Error extracting text from image: {str(e)}"`. -/
def extract_text_from_image (ocr : Except String String) : String :=
  match ocr with
  | .ok t => t
  | .error e => "Error extracting text from image: " ++ e

/-- The collaborator outcomes consumed by one `send_message` request
(app/main.py): the generation capability (`ILLMClient.generate_response`,
taking the selected model and the ordered history, raising on any backend
failure), its image-conditioned variant, the `hasattr(llm,
'generate_response_with_image')` test, the web searcher (total: the adapters
in app/adapters/web_search.py catch internally and return an error string),
the embedding retrieval (the `text` fields of
`EmbeddingService.search_similar(message, top_k=3)`, in descending-score
order), the file processor applied to the saved file path, the OCR text for
the uploaded image, and the outcome of `PIL.Image.open` on the uploaded
bytes. -/
structure Collab where
  gen : String → List Message → Except String String
  genImg : String → List Message → Except String String
  hasImageGen : Bool
  webSearch : String → String
  searchSimilar : String → List String
  processFile : String → String
  extractImage : String
  imageOpen : Except String Unit

/-- An uploaded file as seen by `send_message`: only its client-supplied
name matters for the control flow. -/
structure UploadInfo where
  filename : String
  deriving DecidableEq, Repr

/-- The image-suffix test of app/main.py line 172:
`file.filename.lower().endswith(('.png', '.jpg', '.jpeg'))`. -/
def isImageNameLower (s : String) : Bool :=
  strEndsWith (pyLower s) ".png" || strEndsWith (pyLower s) ".jpg" ||
    strEndsWith (pyLower s) ".jpeg"

/-- `model or Config.DEFAULT_MODEL` (app/main.py lines 185 and 224): Python's
`or` falls through to the default on `None` and on the empty string. -/
def modelOrDefault (m : Option String) : String :=
  match m with
  | none => "mistral:7b"
  | some s => if s = "" then "mistral:7b" else s

/-- The system-message text built from the embedding-retrieval results
(app/main.py line 213): `"\n".join(f"Контекст из базы знаний: {res['text']}"
for res in similar_texts)`. -/
def embCtx (sims : List String) : String :=
  String.intercalate "\n" (sims.map (fun s => "Контекст из базы знаний: " ++ s))

/-- The HTTP-level failure of a `send_message` request: `HTTPException(404)`
from the history gate, or `HTTPException(500)` from the outer `except`
clause. -/
inductive HttpErr where
  | notFound (detail : String)
  | serverError (detail : String)
  deriving DecidableEq, Repr

/-- The success body of `send_message`: the `MessageResponse` model with the
generated text and the list of file names echoed back. -/
structure SendOk where
  response : String
  files : List String
  deriving DecidableEq, Repr

/-- The tail of `send_message` after the file branch has fixed `file_content`
and `files_in_response` (app/main.py lines 205-228): append the user turn
(`message + file_content`), then the optional embedding-context system turn
(only when the retrieval returned a non-empty list), then the optional
web-context system turn, then call the generation capability on the full
re-read history and append its answer as the assistant turn.  A storage
`ValueError` anywhere here is caught by the outer `except Exception` and
becomes a 500 with detail `f"Error processing message: {str(e)}"`; inserts
already committed stay committed, so the state at the failure point is
returned alongside the error.  `t₁` … `t₄` are the CURRENT_TIMESTAMP readings
of the four possible inserts. -/
def sendCore (C : Collab) (mdl : String) (chatId message : String)
    (useWeb useEmbeddings : Bool) (fileContent : String) (files : List String)
    (t₁ t₂ t₃ t₄ : Nat) (σ : Storage) :
    Storage × Except HttpErr SendOk :=
  match add_message t₁ chatId { role := "user", content := message ++ fileContent } σ with
  | .error e => (σ, .error (.serverError ("Error processing message: " ++ e)))
  | .ok σ₁ =>
    match (if useEmbeddings then
             match C.searchSimilar message with
             | [] => .ok σ₁
             | sims => add_message t₂ chatId
                 { role := "system", content := embCtx sims } σ₁
           else (.ok σ₁ : Except String Storage)) with
    | .error e => (σ₁, .error (.serverError ("Error processing message: " ++ e)))
    | .ok σ₂ =>
      match (if useWeb then
               add_message t₃ chatId
                 { role := "system",
                   content := "Веб-контекст: " ++ C.webSearch message } σ₂
             else (.ok σ₂ : Except String Storage)) with
      | .error e => (σ₂, .error (.serverError ("Error processing message: " ++ e)))
      | .ok σ₃ =>
        match C.gen mdl (get_history σ₃ chatId) with
        | .error e => (σ₃, .error (.serverError ("Error processing message: " ++ e)))
        | .ok resp =>
          match add_message t₄ chatId { role := "assistant", content := resp } σ₃ with
          | .error e => (σ₃, .error (.serverError ("Error processing message: " ++ e)))
          | .ok σ₄ => (σ₄, .ok { response := resp, files := files })

/-- The `send_message` route handler (app/main.py lines 141-234).  The gate at
line 159 rejects the request with 404 "Chat not found" whenever
`get_history` is empty.  An uploaded file with an image suffix enters the
inner `try` of lines 173-195: when `Image.open` succeeds and the client has
the image entry point (true for both shipped clients), the user turn with the
`[Image: …]` marker is appended and the image-conditioned generation is
called; any exception inside that `try` — from `Image.open`, the storage
append, or the image generation — is caught at line 193, sets `file_content`
to the `[Ошибка обработки изображения: …]` note, and falls through to the
normal pipeline with whatever state the database already committed.  A
non-image file is saved, processed, and folded into `file_content` with the
`[Прикреплён файл: …]` marker, and its name is echoed in the response. -/
def send_message (C : Collab) (chatId message : String)
    (useWeb useEmbeddings : Bool) (model : Option String)
    (file : Option UploadInfo) (t₁ t₂ t₃ t₄ : Nat) (σ : Storage) :
    Storage × Except HttpErr SendOk :=
  if get_history σ chatId = [] then
    (σ, .error (.notFound "Chat not found"))
  else
    match file with
    | none =>
      sendCore C (modelOrDefault model) chatId message useWeb useEmbeddings
        "" [] t₁ t₂ t₃ t₄ σ
    | some f =>
      if isImageNameLower f.filename then
        match C.imageOpen with
        | .error e =>
          sendCore C (modelOrDefault model) chatId message useWeb useEmbeddings
            ("\n[Ошибка обработки изображения: " ++ e ++ "]") [] t₁ t₂ t₃ t₄ σ
        | .ok _ =>
          if C.hasImageGen then
            match add_message t₁ chatId
                { role := "user",
                  content := message ++ "\n[Image: " ++ f.filename ++
                    "]\nExtracted text: " ++ C.extractImage } σ with
            | .error e =>
              sendCore C (modelOrDefault model) chatId message useWeb
                useEmbeddings ("\n[Ошибка обработки изображения: " ++ e ++ "]")
                [] t₁ t₂ t₃ t₄ σ
            | .ok σ₁ =>
              match C.genImg (modelOrDefault model) (get_history σ₁ chatId) with
              | .error e =>
                sendCore C (modelOrDefault model) chatId message useWeb
                  useEmbeddings ("\n[Ошибка обработки изображения: " ++ e ++ "]")
                  [] t₁ t₂ t₃ t₄ σ₁
              | .ok resp =>
                match add_message t₂ chatId
                    { role := "assistant", content := resp } σ₁ with
                | .error e =>
                  sendCore C (modelOrDefault model) chatId message useWeb
                    useEmbeddings
                    ("\n[Ошибка обработки изображения: " ++ e ++ "]")
                    [] t₁ t₂ t₃ t₄ σ₁
                | .ok σ₂ => (σ₂, .ok { response := resp, files := [f.filename] })
          else
            sendCore C (modelOrDefault model) chatId message useWeb
              useEmbeddings
              ("\n[Прикреплено изображение: " ++ f.filename ++
                "]\nИзвлеченный текст: " ++ C.extractImage)
              [] t₁ t₂ t₃ t₄ σ
      else
        sendCore C (modelOrDefault model) chatId message useWeb useEmbeddings
          ("\n[Прикреплён файл: " ++ f.filename ++ "]\n" ++
            C.processFile f.filename)
          [f.filename] t₁ t₂ t₃ t₄ σ

/-- Sequential `add_message` calls against one chat, each with its own
CURRENT_TIMESTAMP reading; stops at the first storage error.  This is the
store-level protocol a caller follows when appending a conversation turn by
turn. -/
def appendAll (c : String) (ms : List (Nat × Message)) (σ : Storage) :
    Except String Storage :=
  match ms with
  | [] => .ok σ
  | (t, m) :: rest =>
    match add_message t c m σ with
    | .error e => .error e
    | .ok σ' => appendAll c rest σ'

/-- The storage state `sendCore` has committed when it reaches the generation
call: the user turn, then the embedding-context turn when `useEmbeddings` is
set and the retrieval was non-empty, then the web-context turn when `useWeb`
is set. -/
def preGenState (C : Collab) (chatId message : String)
    (useWeb useEmbeddings : Bool) (fileContent : String)
    (t₁ t₂ t₃ : Nat) (σ : Storage) : Storage :=
  let σ₁ := addRow t₁ chatId { role := "user", content := message ++ fileContent } σ
  let σ₂ :=
    if useEmbeddings then
      match C.searchSimilar message with
      | [] => σ₁
      | sims => addRow t₂ chatId { role := "system", content := embCtx sims } σ₁
    else σ₁
  if useWeb then
    addRow t₃ chatId
      { role := "system", content := "Веб-контекст: " ++ C.webSearch message } σ₂
  else σ₂

/-- The rows committed by `appendAll c ms` when every call succeeds. -/
def turnRows (c : String) (ms : List (Nat × Message)) : List MsgRow :=
  ms.map (fun tm => msgRow c tm.2 tm.1)

/-- The `file_content` string built by the non-image file branch of
`send_message` (empty when no file was uploaded). -/
def fileContentOf (C : Collab) (file : Option UploadInfo) : String :=
  match file with
  | none => ""
  | some f => "\n[Прикреплён файл: " ++ f.filename ++ "]\n" ++
      C.processFile f.filename

/-- The `files_in_response` list of the non-image branch of
`send_message`. -/
def filesOf (file : Option UploadInfo) : List String :=
  match file with
  | none => []
  | some f => [f.filename]

/-
Concrete fixtures used by the end-to-end scenarios, counterexamples and
witnesses.
-/

/-- Collaborator stub of scenario A: generation answers "hi there", web
search answers "result A", embedding retrieval finds nothing, files are
inert. -/
def stubA : Collab :=
  { gen := fun _ _ => .ok "hi there"
    genImg := fun _ _ => .error "no image backend"
    hasImageGen := true
    webSearch := fun _ => "result A"
    searchSimilar := fun _ => []
    processFile := fun _ => ""
    extractImage := ""
    imageOpen := .ok () }

/-- A generation stub that returns an empty textual result. -/
def stubEmpty : Collab := { stubA with gen := fun _ _ => .ok "" }

/-- A generation stub that raises a network error. -/
def stubErr : Collab := { stubA with gen := fun _ _ => .error "boom" }

/-- A stub whose retrieval and search both return content, and whose file
processor extracts "PF". -/
def stubB : Collab :=
  { stubA with
    gen := fun _ _ => .ok "r"
    searchSimilar := fun _ => ["s1", "s2"]
    webSearch := fun _ => "w"
    processFile := fun _ => "PF" }

/-- The database right after `createSession()` on a fresh deployment: one
chat "c1", no messages, no names. -/
def σfresh : Storage := { chats := ["c1"], messages := [], chatNames := [] }

/-- A database whose chat "c" holds one user message. -/
def σone : Storage :=
  { chats := ["c"]
    messages := [{ chatId := "c", role := "user", content := "x", timestamp := 0 }]
    chatNames := [] }

/-- A database whose chat "c" holds one message and carries the name
"проект". -/
def σnamed : Storage :=
  { chats := ["c"]
    messages := [{ chatId := "c", role := "user", content := "x", timestamp := 0 }]
    chatNames := [("c", "проект")] }

/-- A database with two chats, each holding one message. -/
def σtwo : Storage :=
  { chats := ["c", "d"]
    messages :=
      [{ chatId := "c", role := "user", content := "in c", timestamp := 0 },
       { chatId := "d", role := "user", content := "in d", timestamp := 1 }]
    chatNames := [] }

/-- Three sequential turns, the first two sharing a clock tick. -/
def msW : List (Nat × Message) :=
  [(3, { role := "user", content := "a" }),
   (3, { role := "assistant", content := "b" }),
   (4, { role := "user", content := "c" })]

/-- Extraction outcomes where the plain-text read and the DOCX and OCR calls
raise and only the PDF call succeeds. -/
def opsW : ExtractOps :=
  { ocr := .error "tesseract missing"
    pdfPages := .ok ["page1", "page2"]
    docxParas := .error "bad docx"
    readText := .error "boom" }

/-
Helper lemmas about the storage operations and the request pipeline.
-/

theorem addRow_chats (t : Nat) (c : String) (m : Message) (σ : Storage) :
    (addRow t c m σ).chats = σ.chats := rfl

/-- A successful `add_message` against an existing chat commits exactly one
row. -/
theorem add_message_of_contains {σ : Storage} {c : String}
    (h : σ.chats.contains c = true) (t : Nat) (m : Message) :
    add_message t c m σ = .ok (addRow t c m σ) := by
  unfold add_message
  rw [h]
  rfl

/-- Full characterisation of `sendCore` against an existing chat: it commits
the turns described by `preGenState`, hands the re-read history to the
generation capability, and either appends the answer as the assistant turn or
reports a 500 while keeping every turn committed so far. -/
theorem sendCore_spec (C : Collab) (mdl chatId message : String)
    (useWeb useEmbeddings : Bool) (fileContent : String) (files : List String)
    (t₁ t₂ t₃ t₄ : Nat) (σ : Storage)
    (hc : σ.chats.contains chatId = true) :
    sendCore C mdl chatId message useWeb useEmbeddings fileContent files
        t₁ t₂ t₃ t₄ σ =
      (match C.gen mdl (get_history
          (preGenState C chatId message useWeb useEmbeddings fileContent
            t₁ t₂ t₃ σ) chatId) with
       | .ok resp =>
         (addRow t₄ chatId { role := "assistant", content := resp }
            (preGenState C chatId message useWeb useEmbeddings fileContent
              t₁ t₂ t₃ σ),
          .ok { response := resp, files := files })
       | .error e =>
         (preGenState C chatId message useWeb useEmbeddings fileContent
            t₁ t₂ t₃ σ,
          .error (.serverError ("Error processing message: " ++ e)))) := by
  unfold sendCore preGenState
  cases useEmbeddings <;> cases useWeb <;>
    cases hs : C.searchSimilar message <;>
      simp only [add_message, addRow_chats, hc, Bool.false_eq_true, if_true,
        if_false, eq_self_iff_true, ite_true, ite_false, hs] <;>
      (split <;> rename_i hg <;> rw [hg])

/-- A request without an uploaded file that passes the history gate goes
straight to the normal pipeline. -/
theorem send_message_no_file (C : Collab) (chatId message : String)
    (useWeb useEmbeddings : Bool) (model : Option String)
    (t₁ t₂ t₃ t₄ : Nat) (σ : Storage)
    (hne : ¬ get_history σ chatId = []) :
    send_message C chatId message useWeb useEmbeddings model none
        t₁ t₂ t₃ t₄ σ =
      sendCore C (modelOrDefault model) chatId message useWeb useEmbeddings
        "" [] t₁ t₂ t₃ t₄ σ := by
  unfold send_message
  rw [if_neg hne]

/-- A request with a non-image file that passes the history gate folds the
extracted text into `file_content` with the attachment marker and echoes the
file name. -/
theorem send_message_other_file (C : Collab) (chatId message : String)
    (useWeb useEmbeddings : Bool) (model : Option String) (f : UploadInfo)
    (t₁ t₂ t₃ t₄ : Nat) (σ : Storage)
    (hne : ¬ get_history σ chatId = [])
    (himg : isImageNameLower f.filename = false) :
    send_message C chatId message useWeb useEmbeddings model (some f)
        t₁ t₂ t₃ t₄ σ =
      sendCore C (modelOrDefault model) chatId message useWeb useEmbeddings
        ("\n[Прикреплён файл: " ++ f.filename ++ "]\n" ++
          C.processFile f.filename)
        [f.filename] t₁ t₂ t₃ t₄ σ := by
  unfold send_message
  rw [if_neg hne]
  simp only [himg, Bool.false_eq_true, if_false]

/-- When the rows selected for a chat are already in non-decreasing timestamp
order, the ORDER BY is the identity and the history is just the projected
filter. -/
theorem get_history_of_sorted {σ : Storage} {c : String}
    (h : (σ.messages.filter (fun r => r.chatId == c)).Pairwise
      (fun a b => a.timestamp ≤ b.timestamp)) :
    get_history σ c = (σ.messages.filter (fun r => r.chatId == c)).map
      (fun r => { role := r.role, content := r.content }) := by
  unfold get_history
  rw [List.Sorted.insertionSort_eq h]

/-- A chat with no rows has an empty history. -/
theorem get_history_of_filter_nil {σ : Storage} {c : String}
    (h : σ.messages.filter (fun r => r.chatId == c) = []) :
    get_history σ c = [] := by
  unfold get_history
  rw [h]
  rfl

/-- Membership in a history, unfolded down to the rows of the messages
table. -/
theorem mem_get_history {σ : Storage} {c : String} {m : Message} :
    m ∈ get_history σ c ↔
      ∃ r ∈ σ.messages, r.chatId = c ∧ r.role = m.role ∧
        r.content = m.content := by
  unfold get_history
  simp only [List.mem_map, List.mem_insertionSort, List.mem_filter, beq_iff_eq]
  constructor
  · rintro ⟨r, ⟨hr, hcc⟩, rfl⟩
    exact ⟨r, hr, hcc, rfl, rfl⟩
  · rintro ⟨r, hr, hcc, h1, h2⟩
    refine ⟨r, ⟨hr, hcc⟩, ?_⟩
    cases m
    simp_all

theorem filter_filter_of_ne {s t : String} (hst : ¬ s = t) (l : List MsgRow) :
    (l.filter (fun r => !(r.chatId == s))).filter (fun r => r.chatId == t) =
      l.filter (fun r => r.chatId == t) := by
  induction l with
  | nil => rfl
  | cons r l ih =>
    by_cases h : r.chatId = s
    · have ht : (r.chatId == t) = false := by
        apply beq_eq_false_iff_ne.mpr
        rw [h]
        exact hst
      have hs : (r.chatId == s) = true := beq_iff_eq.mpr h
      simp [List.filter_cons, hs, ht, ih]
    · have hs : (r.chatId == s) = false := beq_eq_false_iff_ne.mpr h
      by_cases h2 : r.chatId = t
      · have ht : (r.chatId == t) = true := beq_iff_eq.mpr h2
        simp [List.filter_cons, hs, ht, ih]
      · have ht : (r.chatId == t) = false := beq_eq_false_iff_ne.mpr h2
        simp [List.filter_cons, hs, ht, ih]

theorem filter_self_delete (s : String) (l : List MsgRow) :
    (l.filter (fun r => !(r.chatId == s))).filter (fun r => r.chatId == s) =
      [] := by
  induction l with
  | nil => rfl
  | cons r l ih =>
    by_cases h : r.chatId = s
    · have hs : (r.chatId == s) = true := beq_iff_eq.mpr h
      simp [List.filter_cons, hs, ih]
    · have hs : (r.chatId == s) = false := beq_eq_false_iff_ne.mpr h
      simp [List.filter_cons, hs, ih]

theorem contains_filter_ne (s : String) (l : List String) :
    (l.filter (fun x => !(x == s))).contains s = false := by
  induction l with
  | nil => rfl
  | cons x l ih =>
    by_cases h : x = s
    · have hs : (x == s) = true := beq_iff_eq.mpr h
      simp [List.filter_cons, hs, ih]
    · have hs : (x == s) = false := beq_eq_false_iff_ne.mpr h
      have hs2 : (s == x) = false := beq_eq_false_iff_ne.mpr (fun hh => h hh.symm)
      simp [List.filter_cons, hs, hs2, ih, List.contains_cons]
      exact fun hh => h hh.symm

theorem filter_idem {α : Type} (p : α → Bool) (l : List α) :
    (l.filter p).filter p = l.filter p := by
  induction l with
  | nil => rfl
  | cons r l ih =>
    by_cases h : p r = true
    · simp [List.filter_cons, h, ih]
    · have h2 : p r = false := by
        cases hp : p r
        · rfl
        · exact absurd hp h
      simp [List.filter_cons, h2, ih]

/-- The rows committed before the generation call, flattened: the user turn,
then the optional embedding-context turn, then the optional web-context
turn. -/
theorem preGenState_messages (C : Collab) (chatId message : String)
    (useWeb useEmbeddings : Bool) (fc : String) (t₁ t₂ t₃ : Nat)
    (σ : Storage) :
    (preGenState C chatId message useWeb useEmbeddings fc t₁ t₂ t₃ σ).messages =
      σ.messages ++
        [msgRow chatId { role := "user", content := message ++ fc } t₁] ++
        (if useEmbeddings then
           match C.searchSimilar message with
           | [] => []
           | sims =>
             [msgRow chatId { role := "system", content := embCtx sims } t₂]
         else []) ++
        (if useWeb then
           [msgRow chatId
              { role := "system",
                content := "Веб-контекст: " ++ C.webSearch message } t₃]
         else []) := by
  unfold preGenState addRow
  cases useEmbeddings <;> cases useWeb <;>
    cases hs : C.searchSimilar message <;>
      simp [hs, List.append_assoc]

/-
Claim theorems.
-/

/-- Claim C1 (code bug): end-to-end scenario A fails on the code.  After
`create_chat` returns a fresh chat, posting "hello" with both augmentation
flags off against a generation stub that would answer "hi there" is rejected
with 404 "Chat not found" and nothing is appended, because the existence gate
of `send_message` (app/main.py line 159) tests `not storage.get_history(...)`
and a fresh chat's history is empty.  The claimed outcome — history
`[user:"hello", assistant:"hi there"]` and body `{"response": "hi there"}` —
is unreachable for a fresh session. -/
theorem C1_scenarioA_fresh_chat_rejected :
    create_chat "c1" Storage.init = .ok σfresh ∧
    send_message stubA "c1" "hello" false false none none 1 1 1 1 σfresh =
      (σfresh, .error (.notFound "Chat not found")) ∧
    get_history σfresh "c1" = [] :=
  ⟨rfl, rfl, rfl⟩

/-- Claim C2, counterexample: a request whose generation call returns the
empty string is reported as a success with empty content, and the empty
assistant turn is appended — there is no EmptyResponse failure path in
`send_message` (app/main.py lines 221-228 append and return the response
unconditionally). -/
theorem C2_counterexample_empty_response_success :
    send_message stubEmpty "c" "hello" false false none none 1 1 1 1 σone =
      ({ σone with
          messages := σone.messages ++
            [msgRow "c" { role := "user", content := "hello" } 1,
             msgRow "c" { role := "assistant", content := "" } 1] },
       .ok { response := "", files := [] }) :=
  rfl

/-- Claim C2 (amended): a request whose generation call returns an empty
textual result is treated as a success: the empty string is appended as the
assistant turn and the response body carries the empty content.  No failure
is reported and no append is skipped. -/
theorem C2_empty_response_appended (C : Collab) (chatId message : String)
    (useWeb useEmbeddings : Bool) (model : Option String)
    (t₁ t₂ t₃ t₄ : Nat) (σ : Storage)
    (hc : σ.chats.contains chatId = true)
    (hne : ¬ get_history σ chatId = [])
    (hgen : C.gen (modelOrDefault model)
      (get_history (preGenState C chatId message useWeb useEmbeddings ""
        t₁ t₂ t₃ σ) chatId) = .ok "") :
    send_message C chatId message useWeb useEmbeddings model none
        t₁ t₂ t₃ t₄ σ =
      (addRow t₄ chatId { role := "assistant", content := "" }
        (preGenState C chatId message useWeb useEmbeddings "" t₁ t₂ t₃ σ),
       .ok { response := "", files := [] }) := by
  rw [send_message_no_file C chatId message useWeb useEmbeddings model
    t₁ t₂ t₃ t₄ σ hne]
  rw [sendCore_spec C (modelOrDefault model) chatId message useWeb
    useEmbeddings "" [] t₁ t₂ t₃ t₄ σ hc]
  rw [hgen]

theorem C2_empty_response_appended_witness :
    send_message stubEmpty "c" "hello" false false none none 1 1 1 1 σone =
      (addRow 1 "c" { role := "assistant", content := "" }
        (preGenState stubEmpty "c" "hello" false false "" 1 1 1 σone),
       .ok { response := "", files := [] }) :=
  C2_empty_response_appended stubEmpty "c" "hello" false false none
    1 1 1 1 σone (by decide) (by decide) rfl

/-- Claim C3: for an existing chat with no messages, `get_history` returns
the empty sequence (it is total, never an error), and the store's public
contract distinguishes that chat from a non-existent one: `add_message`
succeeds on the existing empty chat and raises "Chat ... not found" on the
missing one. -/
theorem C3_empty_history_not_error (σ : Storage) (s t : String) (t₀ : Nat)
    (m : Message)
    (hs : σ.chats.contains s = true)
    (hempty : σ.messages.filter (fun r => r.chatId == s) = [])
    (ht : σ.chats.contains t = false) :
    get_history σ s = [] ∧
    add_message t₀ s m σ = .ok (addRow t₀ s m σ) ∧
    add_message t₀ t m σ = .error ("Chat " ++ t ++ " not found") := by
  refine ⟨get_history_of_filter_nil hempty,
    add_message_of_contains hs t₀ m, ?_⟩
  unfold add_message
  rw [ht]
  rfl

theorem C3_empty_history_not_error_witness :
    get_history σfresh "c1" = [] ∧
    add_message 5 "c1" { role := "user", content := "hi" } σfresh =
      .ok (addRow 5 "c1" { role := "user", content := "hi" } σfresh) ∧
    add_message 5 "nope" { role := "user", content := "hi" } σfresh =
      .error ("Chat " ++ "nope" ++ " not found") :=
  C3_empty_history_not_error σfresh "c1" "nope" 5
    { role := "user", content := "hi" } (by decide) (by decide) (by decide)

/-- Claim C4, counterexample: deleting a chat that carries a name removes its
messages and its chats row, but the name association survives —
`delete_chat` (app/infrastructure/storage.py lines 72-76) issues no DELETE
against `chat_names`, so `get_chat_name` still answers after the
deletion. -/
theorem C4_counterexample_name_survives_delete :
    get_chat_name (delete_chat "c" σnamed) "c" = some "проект" ∧
    get_history (delete_chat "c" σnamed) "c" = [] ∧
    (delete_chat "c" σnamed).chats.contains "c" = false :=
  ⟨rfl, rfl, rfl⟩

/-- Claim C4 (amended): `delete_chat` removes all messages of the chat and
its chats row, and deleting a non-existent chat is not an error (the
operation is total and idempotent); the name association, however, is NOT
removed — the `chat_names` table is left untouched. -/
theorem C4_delete_removes_messages_not_name (σ : Storage) (s : String) :
    get_history (delete_chat s σ) s = [] ∧
    (delete_chat s σ).chats.contains s = false ∧
    (delete_chat s σ).chatNames = σ.chatNames ∧
    delete_chat s (delete_chat s σ) = delete_chat s σ := by
  refine ⟨?_, ?_, rfl, ?_⟩
  · exact get_history_of_filter_nil (filter_self_delete s σ.messages)
  · exact contains_filter_ne s σ.chats
  · unfold delete_chat
    simp [filter_idem]

/-- Claim C10: deleting one chat leaves the history of every other chat
unchanged — the DELETEs of `delete_chat` are filtered by the deleted chat id
and never touch rows of a different chat. -/
theorem C10_delete_frame (σ : Storage) (s t : String) (hst : ¬ s = t) :
    get_history (delete_chat s σ) t = get_history σ t := by
  unfold get_history delete_chat
  rw [show ({ σ with
      messages := σ.messages.filter (fun r => !(r.chatId == s))
      chats := σ.chats.filter (fun x => !(x == s)) } : Storage).messages =
    σ.messages.filter (fun r => !(r.chatId == s)) from rfl]
  rw [filter_filter_of_ne hst]

theorem C10_delete_frame_witness :
    get_history (delete_chat "c" σtwo) "d" = get_history σtwo "d" :=
  C10_delete_frame σtwo "c" "d" (by decide)

/-- The upserted name is the one `SELECT`ed afterwards: `find?` walks past
the filtered prefix (whose keys all differ from `c`) and hits the fresh
row. -/
theorem find_upsert (c v : String) (l : List (String × String)) :
    ((l.filter (fun p => !(p.1 == c))) ++ [(c, v)]).find?
        (fun p => p.1 == c) = some (c, v) := by
  induction l with
  | nil => simp [List.find?]
  | cons p l ih =>
    by_cases h : p.1 = c
    · have hs : (p.1 == c) = true := beq_iff_eq.mpr h
      simp [List.filter_cons, hs, ih]
    · have hs : (p.1 == c) = false := beq_eq_false_iff_ne.mpr h
      simp [List.filter_cons, hs, List.find?, ih]

/-- Claim C6: `rename_chat` fails with the invalid-argument error when the
new name strips to the empty string — the check happens before any database
access, so the prior name is untouched (no state is produced); it fails with
the not-found error when the chat does not exist; otherwise it succeeds and
upserts the stripped name, leaving chats and messages unchanged. -/
theorem C6_rename_contract (σ : Storage) (c n : String) :
    (pyStrip n = "" →
      rename_chat c n σ = .error "Имя чата не может быть пустым") ∧
    (¬ pyStrip n = "" → σ.chats.contains c = false →
      rename_chat c n σ = .error ("Чат " ++ c ++ " не найден")) ∧
    (¬ pyStrip n = "" → σ.chats.contains c = true →
      ∃ σ', rename_chat c n σ = .ok σ' ∧
        get_chat_name σ' c = some (pyStrip n) ∧
        σ'.chats = σ.chats ∧ σ'.messages = σ.messages) := by
  refine ⟨?_, ?_, ?_⟩
  · intro h
    unfold rename_chat
    rw [if_pos h]
  · intro h hf
    unfold rename_chat
    rw [if_neg h, hf]
    rfl
  · intro h ht
    refine ⟨{ σ with
      chatNames := (σ.chatNames.filter (fun p => !(p.1 == c))) ++
        [(c, pyStrip n)] }, ?_, ?_, rfl, rfl⟩
    · unfold rename_chat
      rw [if_neg h, ht]
      rfl
    · unfold get_chat_name
      rw [show ({ σ with
          chatNames := (σ.chatNames.filter (fun p => !(p.1 == c))) ++
            [(c, pyStrip n)] } : Storage).chatNames =
        (σ.chatNames.filter (fun p => !(p.1 == c))) ++ [(c, pyStrip n)]
        from rfl]
      rw [find_upsert]

theorem C6_rename_contract_witness :
    rename_chat "c" " \t\u000B " σnamed =
      .error "Имя чата не может быть пустым" ∧
    rename_chat "nope" "NewName" σnamed =
      .error ("Чат " ++ "nope" ++ " не найден") ∧
    ∃ σ', rename_chat "c" "  новое имя  " σnamed = .ok σ' ∧
      get_chat_name σ' "c" = some (pyStrip "  новое имя  ") ∧
      σ'.chats = σnamed.chats ∧ σ'.messages = σnamed.messages :=
  ⟨(C6_rename_contract σnamed "c" " \t\u000B ").1 (by decide),
   (C6_rename_contract σnamed "nope" "NewName").2.1 (by decide) (by decide),
   (C6_rename_contract σnamed "c" "  новое имя  ").2.2 (by decide) (by decide)⟩

/-- When the chat exists, every sequential append succeeds and the rows land
at the end of the messages table in issue order. -/
theorem appendAll_ok {c : String} (ms : List (Nat × Message)) (σ : Storage)
    (hc : σ.chats.contains c = true) :
    appendAll c ms σ = .ok { σ with messages := σ.messages ++ turnRows c ms } := by
  induction ms generalizing σ with
  | nil =>
    simp [appendAll, turnRows]
  | cons tm rest ih =>
    unfold appendAll
    rw [add_message_of_contains hc]
    dsimp only
    rw [ih (addRow tm.1 c tm.2 σ) hc]
    simp [addRow, turnRows, msgRow]

/-- Claim C5: a finite sequence of sequential appends against one chat with
non-decreasing clock readings is returned by get_history exactly in issue
order. -/
theorem C5_sequential_appends_ordered (σ : Storage) (c : String)
    (ms : List (Nat × Message))
    (hc : σ.chats.contains c = true)
    (hempty : σ.messages.filter (fun r => r.chatId == c) = [])
    (hsorted : (ms.map Prod.fst).Pairwise (fun a b => a ≤ b)) :
    appendAll c ms σ = .ok { σ with messages := σ.messages ++ turnRows c ms } ∧
    get_history { σ with messages := σ.messages ++ turnRows c ms } c =
      ms.map Prod.snd := by
  refine ⟨appendAll_ok ms σ hc, ?_⟩
  have hfilter : (σ.messages ++ turnRows c ms).filter (fun r => r.chatId == c) =
      turnRows c ms := by
    rw [List.filter_append, hempty]
    have hall : ∀ r ∈ turnRows c ms, (r.chatId == c) = true := by
      intro r hr
      unfold turnRows at hr
      obtain ⟨tm, _, rfl⟩ := List.mem_map.mp hr
      simp [msgRow]
    rw [List.filter_eq_self.mpr hall]
    rfl
  have hsor : (turnRows c ms).Pairwise
      (fun a b => a.timestamp ≤ b.timestamp) := by
    unfold turnRows
    rw [List.pairwise_map]
    simpa [msgRow] using List.pairwise_map.mp hsorted
  unfold get_history
  rw [show ({ σ with messages := σ.messages ++ turnRows c ms } : Storage).messages =
    σ.messages ++ turnRows c ms from rfl]
  rw [hfilter]
  rw [List.Sorted.insertionSort_eq hsor]
  rw [turnRows, List.map_map]
  rfl

theorem C5_sequential_appends_ordered_witness :
    appendAll "c1" msW σfresh =
      .ok { σfresh with messages := σfresh.messages ++ turnRows "c1" msW } ∧
    get_history { σfresh with
        messages := σfresh.messages ++ turnRows "c1" msW } "c1" =
      msW.map Prod.snd :=
  C5_sequential_appends_ordered σfresh "c1" msW (by decide) (by decide)
    (by decide)

/-- The non-image upload used by the context-assembly witness. -/
def fileW : UploadInfo := { filename := "notes.txt" }

/-- Claim C7, counterexample: with `useEmbeddings` set but the retrieval
returning an empty list, no system message is appended at all — the inner
`if similar_texts:` guard (app/main.py line 212) skips the context turn, so
the claimed "one system message with the top-K retrieved snippets" does not
appear. -/
theorem C7_counterexample_empty_retrieval_no_system_message :
    (send_message stubA "c" "hello" false true none none
        1 1 1 1 σone).1.messages.filter (fun r => r.role == "system") = [] ∧
    (send_message stubA "c" "hello" false true none none 1 1 1 1 σone).2 =
      .ok { response := "hi there", files := [] } :=
  ⟨rfl, rfl⟩

/-- Claim C7 (amended): outside the multimodal image path, the context pieces
are assembled and persisted before the generation call in the fixed order:
file-derived content is folded into the user message text with the attachment
marker (never a separate system message); then, if `useEmbeddings` is set and
the retrieval returns at least one snippet, one system message with the
retrieved snippets; then, if `useWeb` is set, one system message with the
web-search text.  The multimodal image path instead folds the image text into
the user message and skips both context turns. -/
theorem C7_context_assembly_order (C : Collab) (chatId message : String)
    (useWeb useEmbeddings : Bool) (model : Option String)
    (file : Option UploadInfo) (t₁ t₂ t₃ t₄ : Nat) (σ : Storage)
    (resp : String)
    (hc : σ.chats.contains chatId = true)
    (hne : ¬ get_history σ chatId = [])
    (himg : match file with
            | some f => isImageNameLower f.filename = false
            | none => True)
    (hgen : C.gen (modelOrDefault model)
      (get_history (preGenState C chatId message useWeb useEmbeddings
        (fileContentOf C file) t₁ t₂ t₃ σ) chatId) = .ok resp) :
    (preGenState C chatId message useWeb useEmbeddings (fileContentOf C file)
        t₁ t₂ t₃ σ).messages =
      σ.messages ++
        [msgRow chatId
          { role := "user", content := message ++ fileContentOf C file } t₁] ++
        (if useEmbeddings then
           match C.searchSimilar message with
           | [] => []
           | sims =>
             [msgRow chatId { role := "system", content := embCtx sims } t₂]
         else []) ++
        (if useWeb then
           [msgRow chatId
              { role := "system",
                content := "Веб-контекст: " ++ C.webSearch message } t₃]
         else []) ∧
    send_message C chatId message useWeb useEmbeddings model file
        t₁ t₂ t₃ t₄ σ =
      (addRow t₄ chatId { role := "assistant", content := resp }
        (preGenState C chatId message useWeb useEmbeddings
          (fileContentOf C file) t₁ t₂ t₃ σ),
       .ok { response := resp, files := filesOf file }) := by
  refine ⟨preGenState_messages C chatId message useWeb useEmbeddings
    (fileContentOf C file) t₁ t₂ t₃ σ, ?_⟩
  match file with
  | none =>
    rw [send_message_no_file C chatId message useWeb useEmbeddings model
      t₁ t₂ t₃ t₄ σ hne]
    rw [sendCore_spec C (modelOrDefault model) chatId message useWeb
      useEmbeddings "" [] t₁ t₂ t₃ t₄ σ hc]
    rw [show fileContentOf C none = "" from rfl] at hgen
    rw [hgen]
    rfl
  | some f =>
    rw [send_message_other_file C chatId message useWeb useEmbeddings model f
      t₁ t₂ t₃ t₄ σ hne himg]
    rw [sendCore_spec C (modelOrDefault model) chatId message useWeb
      useEmbeddings _ [f.filename] t₁ t₂ t₃ t₄ σ hc]
    rw [show fileContentOf C (some f) =
      "\n[Прикреплён файл: " ++ f.filename ++ "]\n" ++
        C.processFile f.filename from rfl] at hgen
    rw [hgen]
    rfl

theorem C7_context_assembly_order_witness :
    (preGenState stubB "c" "hello" true true
        (fileContentOf stubB (some fileW)) 1 2 3 σone).messages =
      σone.messages ++
        [msgRow "c"
          { role := "user",
            content := "hello" ++ fileContentOf stubB (some fileW) } 1] ++
        [msgRow "c" { role := "system", content := embCtx ["s1", "s2"] } 2] ++
        [msgRow "c"
          { role := "system", content := "Веб-контекст: " ++ "w" } 3] ∧
    send_message stubB "c" "hello" true true none (some fileW)
        1 2 3 4 σone =
      (addRow 4 "c" { role := "assistant", content := "r" }
        (preGenState stubB "c" "hello" true true
          (fileContentOf stubB (some fileW)) 1 2 3 σone),
       .ok { response := "r", files := ["notes.txt"] }) := by
  have h := C7_context_assembly_order stubB "c" "hello" true true none
    (some fileW) 1 2 3 4 σone "r" (by decide) (by decide) (by decide) rfl
  exact ⟨h.1, h.2⟩

/-- Claim C8: when the generation capability raises after the user turn (and
any context turns) were appended, the request resolves to a 500 server error,
the committed turns — including the user's message — stay in the history, and
no assistant turn is appended: every assistant-roled row of the final state
was already present before the request. -/
theorem C8_generation_failure_preserves_user_turn (C : Collab)
    (chatId message : String) (useWeb useEmbeddings : Bool)
    (model : Option String) (t₁ t₂ t₃ t₄ : Nat) (σ : Storage) (e : String)
    (hc : σ.chats.contains chatId = true)
    (hne : ¬ get_history σ chatId = [])
    (hgen : C.gen (modelOrDefault model)
      (get_history (preGenState C chatId message useWeb useEmbeddings ""
        t₁ t₂ t₃ σ) chatId) = .error e) :
    send_message C chatId message useWeb useEmbeddings model none
        t₁ t₂ t₃ t₄ σ =
      (preGenState C chatId message useWeb useEmbeddings "" t₁ t₂ t₃ σ,
       .error (.serverError ("Error processing message: " ++ e))) ∧
    ({ role := "user", content := message ++ "" } : Message) ∈
      get_history (preGenState C chatId message useWeb useEmbeddings ""
        t₁ t₂ t₃ σ) chatId ∧
    ∀ r ∈ (preGenState C chatId message useWeb useEmbeddings ""
        t₁ t₂ t₃ σ).messages, r.role = "assistant" → r ∈ σ.messages := by
  refine ⟨?_, ?_, ?_⟩
  · rw [send_message_no_file C chatId message useWeb useEmbeddings model
      t₁ t₂ t₃ t₄ σ hne]
    rw [sendCore_spec C (modelOrDefault model) chatId message useWeb
      useEmbeddings "" [] t₁ t₂ t₃ t₄ σ hc]
    rw [hgen]
  · rw [mem_get_history]
    refine ⟨msgRow chatId { role := "user", content := message ++ "" } t₁,
      ?_, rfl, rfl, rfl⟩
    rw [preGenState_messages]
    apply List.mem_append.mpr
    left
    apply List.mem_append.mpr
    left
    apply List.mem_append.mpr
    right
    exact List.mem_singleton.mpr rfl
  · intro r hr hrole
    rw [preGenState_messages] at hr
    simp only [List.append_assoc, List.mem_append, List.mem_singleton] at hr
    rcases hr with hr | hr | hr | hr
    · exact hr
    · rw [hr] at hrole
      simp [msgRow] at hrole
    · exfalso
      rcases hemb : (useEmbeddings : Bool) with _ | _ <;> rw [hemb] at hr
      · simp at hr
      · simp only [if_true] at hr
        rcases hs : C.searchSimilar message with _ | ⟨a, l⟩ <;>
          rw [hs] at hr
        · simp at hr
        · simp only [List.mem_singleton] at hr
          rw [hr] at hrole
          simp [msgRow] at hrole
    · exfalso
      rcases hw : (useWeb : Bool) with _ | _ <;> rw [hw] at hr
      · simp at hr
      · simp only [if_true, List.mem_singleton] at hr
        rw [hr] at hrole
        simp [msgRow] at hrole

theorem C8_generation_failure_preserves_user_turn_witness :
    send_message stubErr "c" "hello" false false none none 1 1 1 1 σone =
      (preGenState stubErr "c" "hello" false false "" 1 1 1 σone,
       .error (.serverError ("Error processing message: " ++ "boom"))) ∧
    ({ role := "user", content := "hello" ++ "" } : Message) ∈
      get_history (preGenState stubErr "c" "hello" false false ""
        1 1 1 σone) "c" := by
  have h := C8_generation_failure_preserves_user_turn stubErr "c" "hello"
    false false none 1 1 1 1 σone "boom" (by decide) (by decide) rfl
  exact ⟨h.1, h.2.1⟩

/-- Claim C9: the file-ingestion extract operation is total at its boundary —
it always returns a text string (its type), and any extraction failure is
converted into the descriptive string beginning with the error marker
("Error processing file: " for `process_file`, "Error extracting text from
image: " for `extract_text_from_image`), returned as ordinary extracted
text. -/
theorem C9_extract_total (fp : String) (ops : ExtractOps)
    (ocr : Except String String) :
    (∀ t, process_file_raw fp ops = .ok t → process_file fp ops = t) ∧
    (∀ e, process_file_raw fp ops = .error e →
      process_file fp ops = "Error processing file: " ++ e) ∧
    (∀ t, ocr = .ok t → extract_text_from_image ocr = t) ∧
    (∀ e, ocr = .error e →
      extract_text_from_image ocr = "Error extracting text from image: " ++ e)
    := by
  refine ⟨?_, ?_, ?_, ?_⟩
  · intro t h
    unfold process_file
    rw [h]
  · intro e h
    unfold process_file
    rw [h]
  · intro t h
    unfold extract_text_from_image
    rw [h]
  · intro e h
    unfold extract_text_from_image
    rw [h]

theorem C9_extract_total_witness :
    process_file "notes.txt" opsW = "Error processing file: " ++ "boom" ∧
    process_file "doc.pdf" opsW = "page1" ++ "\n" ++ "page2" ∧
    extract_text_from_image (.error "tesseract missing") =
      "Error extracting text from image: " ++ "tesseract missing" := by
  have h1 := C9_extract_total "notes.txt" opsW (.error "tesseract missing")
  have h2 := C9_extract_total "doc.pdf" opsW (.error "tesseract missing")
  exact ⟨h1.2.1 "boom" rfl, h2.1 ("page1" ++ "\n" ++ "page2") rfl,
    h1.2.2.2 "tesseract missing" rfl⟩

end LLMApp
